import Mathlib

/-!
Shallow embedding of the handshake state machine and I/O adaptation shim of
secure_transport.rs (Secure Transport bindings).  The native engine calls
(SSLHandshake, SSLRead, SSLWrite, SSLGetSessionState, SSLCopyPeerTrust, the
installation calls) are modelled as oracle inputs: each embedded function
takes, as an explicit argument, the status the corresponding single engine
invocation returns.  The caller's stream is modelled as the list of results
its successive read (resp. write) calls produce.  Panics are modelled as
Option.none, and heap/ownership events of a handshake attempt are recorded
in explicit ledger fields.
-/

namespace SecureTransport

/-- OSStatus codes are signed integers. -/
abbrev OSStatus := Int

/-- errSecSuccess. -/
def errSecSuccess : OSStatus := 0

/-- The generic I/O failure status. -/
def errSecIO : OSStatus := -36

/-- The bad-request status. -/
def errSecBadReq : OSStatus := -909

/-- SSLHandshake / shim would-block status. -/
def errSSLWouldBlock : OSStatus := -9803

/-- Connection closed gracefully. -/
def errSSLClosedGraceful : OSStatus := -9805

/-- Connection closed via error (abort). -/
def errSSLClosedAbort : OSStatus := -9806

/-- Peer closed the connection without a close notification. -/
def errSSLClosedNoNotify : OSStatus := -9816

/-- Server authentication paused (break-on-server-auth). -/
def errSSLPeerAuthCompleted : OSStatus := -9841

/-- Server requested a client certificate (break-on-cert-requested). -/
def errSSLClientCertRequested : OSStatus := -9842

/-- base::Error, as built by Error::new(code): wraps an OSStatus. -/
structure Error where
  code : OSStatus
deriving DecidableEq

/-- The variants of std::io::ErrorKind visible to translate_err. -/
inductive IOErrorKind where
  | notFound
  | permissionDenied
  | connectionRefused
  | connectionReset
  | connectionAborted
  | notConnected
  | addrInUse
  | addrNotAvailable
  | brokenPipe
  | alreadyExists
  | wouldBlock
  | invalidInput
  | invalidData
  | timedOut
  | writeZero
  | interrupted
  | other
  | unexpectedEof
deriving DecidableEq

/-- A std::io::Error: its kind plus a tag distinguishing error instances. -/
structure IOError where
  kind : IOErrorKind
  tag : Nat
deriving DecidableEq

/-- translate_err from secure_transport.rs. -/
def translate_err (e : IOError) : OSStatus :=
  match e.kind with
  | IOErrorKind.notFound => errSSLClosedGraceful
  | IOErrorKind.connectionReset => errSSLClosedAbort
  | IOErrorKind.wouldBlock => errSSLWouldBlock
  | _ => errSecIO

/-- Result of one read (resp. write) call on the caller's stream. -/
inductive RWResult where
  | ok (len : Nat)
  | err (e : IOError)
deriving DecidableEq

/-- struct Connection of secure_transport.rs: the caller's stream plus the
most recently stored unrecoverable I/O error. -/
structure Connection (S : Type) where
  stream : S
  err : Option IOError
deriving DecidableEq

/-- Accumulation loop of read_func: n is the destination length, start the
bytes moved so far, rs the results the remaining stream reads produce.
Returns the stored error, the unconsumed stream suffix, the final value of
the transferred-length out-parameter and the returned status; none models a
trace too short for the loop to finish. -/
def read_func_go (e : Option IOError) (n start : Nat) (rs : List RWResult) :
    Option (Option IOError × List RWResult × Nat × OSStatus) :=
  if start < n then
    match rs with
    | [] => none
    | RWResult.ok l :: rest =>
      if l = 0 then some (e, rest, start, errSSLClosedNoNotify)
      else read_func_go e n (start + l) rest
    | RWResult.err er :: rest => some (some er, rest, start, translate_err er)
  else
    some (e, rs, start, errSecSuccess)

/-- read_func of secure_transport.rs over a Connection whose stream is the
trace of read results. -/
def read_func (conn : Connection (List RWResult)) (n : Nat) :
    Option (Connection (List RWResult) × Nat × OSStatus) :=
  match read_func_go conn.err n 0 conn.stream with
  | none => none
  | some (e, rest, start, ret) => some (⟨rest, e⟩, start, ret)

/-- Accumulation loop of write_func (same shape as read_func_go, issuing
stream writes instead of stream reads). -/
def write_func_go (e : Option IOError) (n start : Nat) (ws : List RWResult) :
    Option (Option IOError × List RWResult × Nat × OSStatus) :=
  if start < n then
    match ws with
    | [] => none
    | RWResult.ok l :: rest =>
      if l = 0 then some (e, rest, start, errSSLClosedNoNotify)
      else write_func_go e n (start + l) rest
    | RWResult.err er :: rest => some (some er, rest, start, translate_err er)
  else
    some (e, ws, start, errSecSuccess)

/-- write_func of secure_transport.rs over a Connection whose stream is the
trace of write results. -/
def write_func (conn : Connection (List RWResult)) (n : Nat) :
    Option (Connection (List RWResult) × Nat × OSStatus) :=
  match write_func_go conn.err n 0 conn.stream with
  | none => none
  | some (e, rest, start, ret) => some (⟨rest, e⟩, start, ret)

/-- A trace of stream results that fills a buffer with the given remaining
capacity exactly: every call succeeds with a positive length that fits
within the unfilled suffix handed to it. -/
def fillsExactly : Nat → List RWResult → Bool
  | 0, [] => true
  | 0, _ :: _ => false
  | _ + 1, [] => false
  | r + 1, RWResult.ok l :: rest =>
    decide (0 < l) && decide (l ≤ r + 1) && fillsExactly (r + 1 - l) rest
  | _ + 1, RWResult.err _ :: _ => false

/-- Bytes moved by a prefix of successful positive transfers each of which
leaves the buffer strictly unfilled (so the loop keeps running). -/
def okPrefix : Nat → List RWResult → Option Nat
  | _, [] => some 0
  | rem, RWResult.ok l :: rest =>
    if 0 < l ∧ l < rem then (okPrefix (rem - l) rest).map (fun p => l + p)
    else none
  | _, RWResult.err _ :: _ => none

/-- ProtocolSide of secure_transport.rs. -/
inductive ProtocolSide where
  | Server
  | Client
deriving DecidableEq

/-- ConnectionType of secure_transport.rs. -/
inductive ConnectionType where
  | Stream
  | Datagram
deriving DecidableEq

/-- SslContext: the side and connection type it was created with stand in
for the opaque engine state reference. -/
structure SslContext where
  side : ProtocolSide
  connType : ConnectionType
deriving DecidableEq

/-- SslStream: the context together with the Connection the engine holds a
back-reference to. -/
structure SslStream (S : Type) where
  ctx : SslContext
  conn : Connection S
deriving DecidableEq

/-- MidHandshakeSslStream wraps an SslStream. -/
structure MidHandshakeSslStream (S : Type) where
  inner : SslStream S
deriving DecidableEq

/-- HandshakeError of secure_transport.rs (the hidden extensibility variant
is never constructed and is omitted). -/
inductive HandshakeError (S : Type) where
  | Failure (e : Error)
  | ServerAuthCompleted (s : MidHandshakeSslStream S)
  | ClientCertRequested (s : MidHandshakeSslStream S)
  | WouldBlock (s : MidHandshakeSslStream S)
deriving DecidableEq

variable {S : Type}

/-- MidHandshakeSslStream::handshake; sslHandshakeRet is the status the
single SSLHandshake invocation of this call returns. -/
def MidHandshakeSslStream.handshake (self : MidHandshakeSslStream S)
    (sslHandshakeRet : OSStatus) :
    Except (HandshakeError S) (SslStream S) :=
  if sslHandshakeRet = errSecSuccess then Except.ok self.inner
  else if sslHandshakeRet = errSSLPeerAuthCompleted then
    Except.error (HandshakeError.ServerAuthCompleted self)
  else if sslHandshakeRet = errSSLClientCertRequested then
    Except.error (HandshakeError.ClientCertRequested self)
  else if sslHandshakeRet = errSSLWouldBlock then
    Except.error (HandshakeError.WouldBlock self)
  else Except.error (HandshakeError.Failure ⟨sslHandshakeRet⟩)

/-- One resume step against the engine's queue of pending SSLHandshake
return statuses: exactly one status is consumed per call. -/
def MidHandshakeSslStream.handshakeDrive (self : MidHandshakeSslStream S)
    (engine : List OSStatus) :
    Option ((Except (HandshakeError S) (SslStream S)) × List OSStatus) :=
  match engine with
  | [] => none
  | st :: rest => some (self.handshake st, rest)

/-- Repeatedly resume a paused handshake, feeding it the listed SSLHandshake
statuses; stops early on completion or on a non-would-block error. -/
def resumeSteps : MidHandshakeSslStream S → List OSStatus →
    Except (HandshakeError S) (SslStream S)
  | s, [] => Except.error (HandshakeError.WouldBlock s)
  | s, st :: rest =>
    match s.handshake st with
    | Except.ok str => Except.ok str
    | Except.error (HandshakeError.WouldBlock s2) => resumeSteps s2 rest
    | Except.error e => Except.error e

/-- Resource/ownership ledger of one SslContext::handshake call:
connAllocated records whether the boxed Connection was created,
connFreed whether this call reclaimed it before returning, and
streamReturned whether the caller's stream is inside the returned value. -/
structure HsStep (S : Type) where
  result : Except (HandshakeError S) (SslStream S)
  connAllocated : Bool
  connFreed : Bool
  streamReturned : Bool

/-- SslContext::handshake; the three status arguments are what the
SSLSetIOFuncs, SSLSetConnection and SSLHandshake invocations return (the
SSLHandshake status is never consulted unless both installations
succeeded). -/
def SslContext.handshake (self : SslContext) (stream : S)
    (setIOFuncsRet setConnectionRet sslHandshakeRet : OSStatus) : HsStep S :=
  if setIOFuncsRet ≠ errSecSuccess then
    ⟨Except.error (HandshakeError.Failure ⟨setIOFuncsRet⟩), false, false, false⟩
  else if setConnectionRet ≠ errSecSuccess then
    ⟨Except.error (HandshakeError.Failure ⟨setConnectionRet⟩), true, true, false⟩
  else
    let s : SslStream S := ⟨self, ⟨stream, none⟩⟩
    if sslHandshakeRet = errSecSuccess then ⟨Except.ok s, true, false, true⟩
    else if sslHandshakeRet = errSSLPeerAuthCompleted then
      ⟨Except.error (HandshakeError.ServerAuthCompleted ⟨s⟩), true, false, true⟩
    else if sslHandshakeRet = errSSLClientCertRequested then
      ⟨Except.error (HandshakeError.ClientCertRequested ⟨s⟩), true, false, true⟩
    else if sslHandshakeRet = errSSLWouldBlock then
      ⟨Except.error (HandshakeError.WouldBlock ⟨s⟩), true, false, true⟩
    else ⟨Except.error (HandshakeError.Failure ⟨sslHandshakeRet⟩), true, true, false⟩

/-- Initial drive step of SslContext::handshake against the engine's queue
of pending SSLHandshake statuses: when both installations succeed exactly
one status is consumed, otherwise none is. -/
def SslContext.handshakeDrive (self : SslContext) (stream : S)
    (setIOFuncsRet setConnectionRet : OSStatus) (engine : List OSStatus) :
    Option (HsStep S × List OSStatus) :=
  if setIOFuncsRet = errSecSuccess ∧ setConnectionRet = errSecSuccess then
    match engine with
    | [] => none
    | st :: rest =>
      some (self.handshake stream setIOFuncsRet setConnectionRet st, rest)
  else
    some (self.handshake stream setIOFuncsRet setConnectionRet 0, engine)

/-- The io::Error surfaced by SslStream::get_error: either the stored
original stream error, removed from the shim by conn.err.take(), or a
fresh error wrapping the engine status. -/
inductive StreamIOError where
  | original (e : IOError)
  | wrappedStatus (ret : OSStatus)
deriving DecidableEq

/-- SslStream::get_error. -/
def SslStream.get_error (self : SslStream S) (ret : OSStatus) :
    SslStream S × StreamIOError :=
  match self.conn.err with
  | some e => (⟨self.ctx, ⟨self.conn.stream, none⟩⟩, StreamIOError.original e)
  | none => (self, StreamIOError.wrappedStatus ret)

/-- Read for SslStream; sslReadRet and nread are the status and the
plaintext-length out-parameter of the single SSLRead invocation. -/
def SslStream.read (self : SslStream S) (sslReadRet : OSStatus) (nread : Nat) :
    SslStream S × Except StreamIOError Nat :=
  if sslReadRet = errSecSuccess then (self, Except.ok nread)
  else if sslReadRet = errSSLClosedGraceful ∨ sslReadRet = errSSLClosedAbort ∨
      sslReadRet = errSSLClosedNoNotify then (self, Except.ok 0)
  else
    let r := self.get_error sslReadRet
    (r.1, Except.error r.2)

/-- Write for SslStream; sslWriteRet and nwritten are the status and the
out-parameter of the single SSLWrite invocation. -/
def SslStream.write (self : SslStream S) (sslWriteRet : OSStatus)
    (nwritten : Nat) : SslStream S × Except StreamIOError Nat :=
  if sslWriteRet = errSecSuccess then (self, Except.ok nwritten)
  else
    let r := self.get_error sslWriteRet
    (r.1, Except.error r.2)

/-- SessionState of secure_transport.rs. -/
inductive SessionState where
  | Idle
  | Handshake
  | Connected
  | Closed
  | Aborted
deriving DecidableEq

/-- Raw SSLSessionState codes. -/
def kSSLIdle : Int := 0

/-- Raw SSLSessionState code for the handshake state. -/
def kSSLHandshake : Int := 1

/-- Raw SSLSessionState code for the connected state. -/
def kSSLConnected : Int := 2

/-- Raw SSLSessionState code for the closed state. -/
def kSSLClosed : Int := 3

/-- Raw SSLSessionState code for the aborted state. -/
def kSSLAborted : Int := 4

/-- SessionState::from_raw; none models the panic on an undocumented
engine code. -/
def SessionState.from_raw (raw : Int) : Option SessionState :=
  if raw = kSSLIdle then some SessionState.Idle
  else if raw = kSSLHandshake then some SessionState.Handshake
  else if raw = kSSLConnected then some SessionState.Connected
  else if raw = kSSLClosed then some SessionState.Closed
  else if raw = kSSLAborted then some SessionState.Aborted
  else none

/-- An opaque SecTrust object. -/
structure SecTrust where
  id : Nat
deriving DecidableEq

/-- SslContext::peer_trust; stateRet is what the session-state query
returns and copyPeerTrustRet what SSLCopyPeerTrust would return; the Bool
records whether SSLCopyPeerTrust was actually invoked. -/
def SslContext.peer_trust (self : SslContext)
    (stateRet : Except Error SessionState)
    (copyPeerTrustRet : Except Error SecTrust) :
    (Except Error SecTrust) × Bool :=
  match stateRet with
  | Except.error e => (Except.error e, false)
  | Except.ok SessionState.Idle => (Except.error ⟨ errSecBadReq ⟩, false)
  | Except.ok _ =>
    match copyPeerTrustRet with
    | Except.error e => (Except.error e, true)
    | Except.ok t => (Except.ok t, true)

/-- SslProtocol of secure_transport.rs (all variants of the table,
including the feature-gated ones). -/
inductive SslProtocol where
  | Unknown
  | Ssl3
  | Tls1
  | Tls11
  | Tls12
  | Dtls1
  | Ssl2
  | Ssl3Only
  | Tls1Only
  | All
deriving DecidableEq

/-- Raw SSLProtocol code for the unknown protocol. -/
def kSSLProtocolUnknown : Int := 0

/-- Raw SSLProtocol code for SSL 3. -/
def kSSLProtocol3 : Int := 2

/-- Raw SSLProtocol code for TLS 1.0. -/
def kTLSProtocol1 : Int := 4

/-- Raw SSLProtocol code for TLS 1.1. -/
def kTLSProtocol11 : Int := 7

/-- Raw SSLProtocol code for TLS 1.2. -/
def kTLSProtocol12 : Int := 8

/-- Raw SSLProtocol code for DTLS 1. -/
def kDTLSProtocol1 : Int := 9

/-- Raw SSLProtocol code for SSL 2. -/
def kSSLProtocol2 : Int := 1

/-- Raw SSLProtocol code for SSL-3-only. -/
def kSSLProtocol3Only : Int := 3

/-- Raw SSLProtocol code for TLS-1-only. -/
def kTLSProtocol1Only : Int := 5

/-- Raw SSLProtocol code for all protocols. -/
def kSSLProtocolAll : Int := 6

/-- SslProtocol::from_raw; none models the panic on an undocumented
engine code. -/
def SslProtocol.from_raw (raw : Int) : Option SslProtocol :=
  if raw = kSSLProtocolUnknown then some SslProtocol.Unknown
  else if raw = kSSLProtocol3 then some SslProtocol.Ssl3
  else if raw = kTLSProtocol1 then some SslProtocol.Tls1
  else if raw = kTLSProtocol11 then some SslProtocol.Tls11
  else if raw = kTLSProtocol12 then some SslProtocol.Tls12
  else if raw = kDTLSProtocol1 then some SslProtocol.Dtls1
  else if raw = kSSLProtocol2 then some SslProtocol.Ssl2
  else if raw = kSSLProtocol3Only then some SslProtocol.Ssl3Only
  else if raw = kTLSProtocol1Only then some SslProtocol.Tls1Only
  else if raw = kSSLProtocolAll then some SslProtocol.All
  else none

/-- SslClientCertificateState of secure_transport.rs. -/
inductive SslClientCertificateState where
  | None
  | Requested
  | Sent
  | Rejected
deriving DecidableEq

/-- Raw client-certificate-state code: none. -/
def kSSLClientCertNone : Int := 0

/-- Raw client-certificate-state code: requested. -/
def kSSLClientCertRequested : Int := 1

/-- Raw client-certificate-state code: sent. -/
def kSSLClientCertSent : Int := 2

/-- Raw client-certificate-state code: rejected. -/
def kSSLClientCertRejected : Int := 3

/-- SslContext::client_certificate_state; getRet is what the
SSLGetClientCertificateState call produced and Option.none models the
panic on an undocumented code. -/
def SslContext.client_certificate_state (self : SslContext)
    (getRet : Except Error Int) :
    Option (Except Error SslClientCertificateState) :=
  match getRet with
  | Except.error e => some (Except.error e)
  | Except.ok state =>
    if state = kSSLClientCertNone then
      some (Except.ok SslClientCertificateState.None)
    else if state = kSSLClientCertRequested then
      some (Except.ok SslClientCertificateState.Requested)
    else if state = kSSLClientCertSent then
      some (Except.ok SslClientCertificateState.Sent)
    else if state = kSSLClientCertRejected then
      some (Except.ok SslClientCertificateState.Rejected)
    else none

/-! Small-step equations for the shim loops. -/

theorem read_go_stop (e : Option IOError) (n start : Nat) (rs : List RWResult)
    (h : ¬ start < n) :
    read_func_go e n start rs = some (e, rs, start, errSecSuccess) := by
  rw [read_func_go.eq_def, if_neg h]

theorem read_go_nil (e : Option IOError) (n start : Nat) (h : start < n) :
    read_func_go e n start [] = none := by
  rw [read_func_go, if_pos h]

theorem read_go_ok_zero (e : Option IOError) (n start : Nat)
    (rest : List RWResult) (h : start < n) :
    read_func_go e n start (RWResult.ok 0 :: rest) =
      some (e, rest, start, errSSLClosedNoNotify) := by
  rw [read_func_go, if_pos h]
  simp

theorem read_go_ok_pos (e : Option IOError) (n start l : Nat)
    (rest : List RWResult) (h : start < n) (hl : l ≠ 0) :
    read_func_go e n start (RWResult.ok l :: rest) =
      read_func_go e n (start + l) rest := by
  rw [read_func_go, if_pos h]
  simp [hl]

theorem read_go_err (e : Option IOError) (n start : Nat) (er : IOError)
    (rest : List RWResult) (h : start < n) :
    read_func_go e n start (RWResult.err er :: rest) =
      some (some er, rest, start, translate_err er) := by
  rw [read_func_go, if_pos h]

theorem write_go_stop (e : Option IOError) (n start : Nat) (ws : List RWResult)
    (h : ¬ start < n) :
    write_func_go e n start ws = some (e, ws, start, errSecSuccess) := by
  rw [write_func_go.eq_def, if_neg h]

theorem write_go_nil (e : Option IOError) (n start : Nat) (h : start < n) :
    write_func_go e n start [] = none := by
  rw [write_func_go, if_pos h]

theorem write_go_ok_zero (e : Option IOError) (n start : Nat)
    (rest : List RWResult) (h : start < n) :
    write_func_go e n start (RWResult.ok 0 :: rest) =
      some (e, rest, start, errSSLClosedNoNotify) := by
  rw [write_func_go, if_pos h]
  simp

theorem write_go_ok_pos (e : Option IOError) (n start l : Nat)
    (rest : List RWResult) (h : start < n) (hl : l ≠ 0) :
    write_func_go e n start (RWResult.ok l :: rest) =
      write_func_go e n (start + l) rest := by
  rw [write_func_go, if_pos h]
  simp [hl]

theorem write_go_err (e : Option IOError) (n start : Nat) (er : IOError)
    (rest : List RWResult) (h : start < n) :
    write_func_go e n start (RWResult.err er :: rest) =
      some (some er, rest, start, translate_err er) := by
  rw [write_func_go, if_pos h]

/-! Behaviour of the accumulation loops on structured traces. -/

theorem read_go_fill (rs : List RWResult) :
    ∀ (e : Option IOError) (n start : Nat), start ≤ n →
      fillsExactly (n - start) rs = true →
      read_func_go e n start rs = some (e, [], n, errSecSuccess) := by
  induction rs with
  | nil =>
    intro e n start hle hf
    have h0 : n - start = 0 := by
      cases hns : n - start with
      | zero => rfl
      | succ k => rw [hns] at hf; simp [fillsExactly] at hf
    have heq : start = n := by omega
    subst heq
    exact read_go_stop e start start [] (by omega)
  | cons head tail ih =>
    intro e n start hle hf
    cases hns : n - start with
    | zero => rw [hns] at hf; simp [fillsExactly] at hf
    | succ k =>
      rw [hns] at hf
      cases head with
      | err er => simp [fillsExactly] at hf
      | ok l =>
        simp only [fillsExactly, Bool.and_eq_true, decide_eq_true_eq] at hf
        obtain ⟨⟨hl, hlle⟩, hrest⟩ := hf
        rw [read_go_ok_pos e n start l tail (by omega) (by omega)]
        exact ih e n (start + l) (by omega)
          (by rw [show n - (start + l) = k + 1 - l from by omega]; exact hrest)

theorem read_go_zero_stop (pfx : List RWResult) :
    ∀ (e : Option IOError) (n start p : Nat) (rest : List RWResult),
      start < n → okPrefix (n - start) pfx = some p →
      read_func_go e n start (pfx ++ RWResult.ok 0 :: rest) =
        some (e, rest, start + p, errSSLClosedNoNotify) := by
  induction pfx with
  | nil =>
    intro e n start p rest hlt hok
    simp only [okPrefix, Option.some.injEq] at hok
    subst hok
    simpa using read_go_ok_zero e n start rest hlt
  | cons head tail ih =>
    intro e n start p rest hlt hok
    cases head with
    | err er => simp [okPrefix] at hok
    | ok l =>
      rw [okPrefix] at hok
      split at hok
      case isFalse => simp at hok
      case isTrue hc =>
        rw [Option.map_eq_some'] at hok
        obtain ⟨q, hq, rfl⟩ := hok
        rw [List.cons_append,
          read_go_ok_pos e n start l (tail ++ RWResult.ok 0 :: rest)
            hlt (by omega)]
        rw [ih e n (start + l) q rest (by omega)
          (by rw [show n - (start + l) = n - start - l from by omega]; exact hq)]
        simp [Nat.add_assoc]

theorem read_go_err_stop (pfx : List RWResult) :
    ∀ (e : Option IOError) (n start p : Nat) (er : IOError)
      (rest : List RWResult),
      start < n → okPrefix (n - start) pfx = some p →
      read_func_go e n start (pfx ++ RWResult.err er :: rest) =
        some (some er, rest, start + p, translate_err er) := by
  induction pfx with
  | nil =>
    intro e n start p er rest hlt hok
    simp only [okPrefix, Option.some.injEq] at hok
    subst hok
    simpa using read_go_err e n start er rest hlt
  | cons head tail ih =>
    intro e n start p er rest hlt hok
    cases head with
    | err er2 => simp [okPrefix] at hok
    | ok l =>
      rw [okPrefix] at hok
      split at hok
      case isFalse => simp at hok
      case isTrue hc =>
        rw [Option.map_eq_some'] at hok
        obtain ⟨q, hq, rfl⟩ := hok
        rw [List.cons_append,
          read_go_ok_pos e n start l (tail ++ RWResult.err er :: rest)
            hlt (by omega)]
        rw [ih e n (start + l) q er rest (by omega)
          (by rw [show n - (start + l) = n - start - l from by omega]; exact hq)]
        simp [Nat.add_assoc]

theorem write_go_fill (ws : List RWResult) :
    ∀ (e : Option IOError) (n start : Nat), start ≤ n →
      fillsExactly (n - start) ws = true →
      write_func_go e n start ws = some (e, [], n, errSecSuccess) := by
  induction ws with
  | nil =>
    intro e n start hle hf
    have h0 : n - start = 0 := by
      cases hns : n - start with
      | zero => rfl
      | succ k => rw [hns] at hf; simp [fillsExactly] at hf
    have heq : start = n := by omega
    subst heq
    exact write_go_stop e start start [] (by omega)
  | cons head tail ih =>
    intro e n start hle hf
    cases hns : n - start with
    | zero => rw [hns] at hf; simp [fillsExactly] at hf
    | succ k =>
      rw [hns] at hf
      cases head with
      | err er => simp [fillsExactly] at hf
      | ok l =>
        simp only [fillsExactly, Bool.and_eq_true, decide_eq_true_eq] at hf
        obtain ⟨⟨hl, hlle⟩, hrest⟩ := hf
        rw [write_go_ok_pos e n start l tail (by omega) (by omega)]
        exact ih e n (start + l) (by omega)
          (by rw [show n - (start + l) = k + 1 - l from by omega]; exact hrest)

theorem write_go_zero_stop (pfx : List RWResult) :
    ∀ (e : Option IOError) (n start p : Nat) (rest : List RWResult),
      start < n → okPrefix (n - start) pfx = some p →
      write_func_go e n start (pfx ++ RWResult.ok 0 :: rest) =
        some (e, rest, start + p, errSSLClosedNoNotify) := by
  induction pfx with
  | nil =>
    intro e n start p rest hlt hok
    simp only [okPrefix, Option.some.injEq] at hok
    subst hok
    simpa using write_go_ok_zero e n start rest hlt
  | cons head tail ih =>
    intro e n start p rest hlt hok
    cases head with
    | err er => simp [okPrefix] at hok
    | ok l =>
      rw [okPrefix] at hok
      split at hok
      case isFalse => simp at hok
      case isTrue hc =>
        rw [Option.map_eq_some'] at hok
        obtain ⟨q, hq, rfl⟩ := hok
        rw [List.cons_append,
          write_go_ok_pos e n start l (tail ++ RWResult.ok 0 :: rest)
            hlt (by omega)]
        rw [ih e n (start + l) q rest (by omega)
          (by rw [show n - (start + l) = n - start - l from by omega]; exact hq)]
        simp [Nat.add_assoc]

theorem write_go_err_stop (pfx : List RWResult) :
    ∀ (e : Option IOError) (n start p : Nat) (er : IOError)
      (rest : List RWResult),
      start < n → okPrefix (n - start) pfx = some p →
      write_func_go e n start (pfx ++ RWResult.err er :: rest) =
        some (some er, rest, start + p, translate_err er) := by
  induction pfx with
  | nil =>
    intro e n start p er rest hlt hok
    simp only [okPrefix, Option.some.injEq] at hok
    subst hok
    simpa using write_go_err e n start er rest hlt
  | cons head tail ih =>
    intro e n start p er rest hlt hok
    cases head with
    | err er2 => simp [okPrefix] at hok
    | ok l =>
      rw [okPrefix] at hok
      split at hok
      case isFalse => simp at hok
      case isTrue hc =>
        rw [Option.map_eq_some'] at hok
        obtain ⟨q, hq, rfl⟩ := hok
        rw [List.cons_append,
          write_go_ok_pos e n start l (tail ++ RWResult.err er :: rest)
            hlt (by omega)]
        rw [ih e n (start + l) q er rest (by omega)
          (by rw [show n - (start + l) = n - start - l from by omega]; exact hq)]
        simp [Nat.add_assoc]

theorem read_func_fill (n : Nat) (rs : List RWResult) (e : Option IOError)
    (h : fillsExactly n rs = true) :
    read_func ⟨rs, e⟩ n = some (⟨[], e⟩, n, errSecSuccess) := by
  have hg := read_go_fill rs e n 0 (Nat.zero_le n) (by simpa using h)
  simp [read_func, hg]

theorem read_func_zero (n p : Nat) (pfx rest : List RWResult)
    (e : Option IOError) (hn : 0 < n) (hok : okPrefix n pfx = some p) :
    read_func ⟨pfx ++ RWResult.ok 0 :: rest, e⟩ n =
      some (⟨rest, e⟩, p, errSSLClosedNoNotify) := by
  have hg := read_go_zero_stop pfx e n 0 p rest hn (by simpa using hok)
  simp only [Nat.zero_add] at hg
  simp [read_func, hg]

theorem read_func_err (n p : Nat) (pfx rest : List RWResult) (er : IOError)
    (e : Option IOError) (hn : 0 < n) (hok : okPrefix n pfx = some p) :
    read_func ⟨pfx ++ RWResult.err er :: rest, e⟩ n =
      some (⟨rest, some er⟩, p, translate_err er) := by
  have hg := read_go_err_stop pfx e n 0 p er rest hn (by simpa using hok)
  simp only [Nat.zero_add] at hg
  simp [read_func, hg]

theorem write_func_fill (n : Nat) (ws : List RWResult) (e : Option IOError)
    (h : fillsExactly n ws = true) :
    write_func ⟨ws, e⟩ n = some (⟨[], e⟩, n, errSecSuccess) := by
  have hg := write_go_fill ws e n 0 (Nat.zero_le n) (by simpa using h)
  simp [write_func, hg]

theorem write_func_zero (n p : Nat) (pfx rest : List RWResult)
    (e : Option IOError) (hn : 0 < n) (hok : okPrefix n pfx = some p) :
    write_func ⟨pfx ++ RWResult.ok 0 :: rest, e⟩ n =
      some (⟨rest, e⟩, p, errSSLClosedNoNotify) := by
  have hg := write_go_zero_stop pfx e n 0 p rest hn (by simpa using hok)
  simp only [Nat.zero_add] at hg
  simp [write_func, hg]

theorem write_func_err (n p : Nat) (pfx rest : List RWResult) (er : IOError)
    (e : Option IOError) (hn : 0 < n) (hok : okPrefix n pfx = some p) :
    write_func ⟨pfx ++ RWResult.err er :: rest, e⟩ n =
      some (⟨rest, some er⟩, p, translate_err er) := by
  have hg := write_go_err_stop pfx e n 0 p er rest hn (by simpa using hok)
  simp only [Nat.zero_add] at hg
  simp [write_func, hg]

/-- Claim C2: the shim entry points loop over the unfilled suffix and
accumulate the transferred count.  A trace of positive successful
transfers that exactly fills the buffer yields success with count n; a
zero-length transfer after moving p bytes stops with the
closed-without-notify status and count p; a stream error after moving p
bytes stops with the translated status and count p; write_func behaves
symmetrically, treating a zero-length write exactly like a zero-length
read.  The reported count is in every case the number of bytes moved. -/
theorem shim_loop_accumulates :
    (∀ (n : Nat) (rs : List RWResult) (e : Option IOError),
      fillsExactly n rs = true →
      read_func ⟨rs, e⟩ n = some (⟨[], e⟩, n, errSecSuccess)) ∧
    (∀ (n p : Nat) (pfx rest : List RWResult) (e : Option IOError),
      0 < n → okPrefix n pfx = some p →
      read_func ⟨pfx ++ RWResult.ok 0 :: rest, e⟩ n =
        some (⟨rest, e⟩, p, errSSLClosedNoNotify)) ∧
    (∀ (n p : Nat) (pfx rest : List RWResult) (er : IOError)
      (e : Option IOError),
      0 < n → okPrefix n pfx = some p →
      read_func ⟨pfx ++ RWResult.err er :: rest, e⟩ n =
        some (⟨rest, some er⟩, p, translate_err er)) ∧
    (∀ (n : Nat) (ws : List RWResult) (e : Option IOError),
      fillsExactly n ws = true →
      write_func ⟨ws, e⟩ n = some (⟨[], e⟩, n, errSecSuccess)) ∧
    (∀ (n p : Nat) (pfx rest : List RWResult) (e : Option IOError),
      0 < n → okPrefix n pfx = some p →
      write_func ⟨pfx ++ RWResult.ok 0 :: rest, e⟩ n =
        some (⟨rest, e⟩, p, errSSLClosedNoNotify)) ∧
    (∀ (n p : Nat) (pfx rest : List RWResult) (er : IOError)
      (e : Option IOError),
      0 < n → okPrefix n pfx = some p →
      write_func ⟨pfx ++ RWResult.err er :: rest, e⟩ n =
        some (⟨rest, some er⟩, p, translate_err er)) :=
  ⟨fun n rs e h => read_func_fill n rs e h,
   fun n p pfx rest e hn hok => read_func_zero n p pfx rest e hn hok,
   fun n p pfx rest er e hn hok => read_func_err n p pfx rest er e hn hok,
   fun n ws e h => write_func_fill n ws e h,
   fun n p pfx rest e hn hok => write_func_zero n p pfx rest e hn hok,
   fun n p pfx rest er e hn hok => write_func_err n p pfx rest er e hn hok⟩

/-- Witness for C2 at concrete traces. -/
theorem shim_loop_accumulates_witness :
    read_func ⟨[RWResult.ok 2, RWResult.ok 1], none⟩ 3 =
      some (⟨[], none⟩, 3, errSecSuccess) ∧
    read_func ⟨[RWResult.ok 1] ++ RWResult.ok 0 :: [], none⟩ 3 =
      some (⟨[], none⟩, 1, errSSLClosedNoNotify) ∧
    read_func ⟨[] ++ RWResult.err ⟨IOErrorKind.interrupted, 5⟩ :: [], none⟩ 2 =
      some (⟨[], some ⟨IOErrorKind.interrupted, 5⟩⟩, 0,
        translate_err ⟨IOErrorKind.interrupted, 5⟩) ∧
    write_func ⟨[RWResult.ok 3], none⟩ 3 =
      some (⟨[], none⟩, 3, errSecSuccess) ∧
    write_func ⟨[RWResult.ok 1] ++ RWResult.ok 0 :: [], none⟩ 3 =
      some (⟨[], none⟩, 1, errSSLClosedNoNotify) ∧
    write_func ⟨[] ++ RWResult.err ⟨IOErrorKind.timedOut, 9⟩ :: [], none⟩ 4 =
      some (⟨[], some ⟨IOErrorKind.timedOut, 9⟩⟩, 0,
        translate_err ⟨IOErrorKind.timedOut, 9⟩) :=
  ⟨shim_loop_accumulates.1 3 [RWResult.ok 2, RWResult.ok 1] none (by decide),
   shim_loop_accumulates.2.1 3 1 [RWResult.ok 1] [] none (by decide) (by decide),
   shim_loop_accumulates.2.2.1 2 0 [] [] ⟨IOErrorKind.interrupted, 5⟩ none
     (by decide) (by decide),
   shim_loop_accumulates.2.2.2.1 3 [RWResult.ok 3] none (by decide),
   shim_loop_accumulates.2.2.2.2.1 3 1 [RWResult.ok 1] [] none (by decide)
     (by decide),
   shim_loop_accumulates.2.2.2.2.2 4 0 [] [] ⟨IOErrorKind.timedOut, 9⟩ none
     (by decide) (by decide)⟩

/-- Claim C3: the status translator maps ErrorKind::NotFound (the kind the
code treats as graceful end-of-input) to errSSLClosedGraceful,
ConnectionReset to errSSLClosedAbort, WouldBlock to errSSLWouldBlock, and
every other error kind to the generic errSecIO; being a total function of
the error kind, the mapping is total and deterministic. -/
theorem translate_err_table :
    (∀ tag : Nat,
      translate_err ⟨IOErrorKind.notFound, tag⟩ = errSSLClosedGraceful) ∧
    (∀ tag : Nat,
      translate_err ⟨IOErrorKind.connectionReset, tag⟩ = errSSLClosedAbort) ∧
    (∀ tag : Nat,
      translate_err ⟨IOErrorKind.wouldBlock, tag⟩ = errSSLWouldBlock) ∧
    (∀ e : IOError, e.kind ≠ IOErrorKind.notFound →
      e.kind ≠ IOErrorKind.connectionReset →
      e.kind ≠ IOErrorKind.wouldBlock →
      translate_err e = errSecIO) := by
  refine ⟨fun tag => rfl, fun tag => rfl, fun tag => rfl, ?_⟩
  intro e h1 h2 h3
  obtain ⟨k, tag⟩ := e
  cases k <;> first | rfl | (exfalso; simp_all)

/-- Witness for C3 at a concrete non-special error kind. -/
theorem translate_err_table_witness :
    translate_err ⟨IOErrorKind.brokenPipe, 0⟩ = errSecIO :=
  translate_err_table.2.2.2 ⟨IOErrorKind.brokenPipe, 0⟩
    (by decide) (by decide) (by decide)

/-- Claim C1: each drive step consumes exactly one SSLHandshake status from
the engine and classifies it: success gives Ok with the stream, the
peer-auth-completed status gives ServerAuthCompleted carrying the
suspended stream, the client-cert-requested status gives
ClientCertRequested, would-block gives WouldBlock, and any other status
gives Failure carrying that status with the stream not returned; this
holds for MidHandshakeSslStream::handshake and for the initial drive in
SslContext::handshake. -/
theorem handshake_drive_step_classification :
    (∀ (S : Type) (s : MidHandshakeSslStream S),
      (s.handshake errSecSuccess = Except.ok s.inner) ∧
      (s.handshake errSSLPeerAuthCompleted =
        Except.error (HandshakeError.ServerAuthCompleted s)) ∧
      (s.handshake errSSLClientCertRequested =
        Except.error (HandshakeError.ClientCertRequested s)) ∧
      (s.handshake errSSLWouldBlock =
        Except.error (HandshakeError.WouldBlock s)) ∧
      (∀ st : OSStatus, st ≠ errSecSuccess → st ≠ errSSLPeerAuthCompleted →
        st ≠ errSSLClientCertRequested → st ≠ errSSLWouldBlock →
        s.handshake st = Except.error (HandshakeError.Failure ⟨st⟩)) ∧
      (∀ (st : OSStatus) (rest : List OSStatus),
        s.handshakeDrive (st :: rest) = some (s.handshake st, rest))) ∧
    (∀ (S : Type) (ctx : SslContext) (stream : S),
      (ctx.handshake stream errSecSuccess errSecSuccess errSecSuccess =
        ⟨Except.ok ⟨ctx, ⟨stream, none⟩⟩, true, false, true⟩) ∧
      (ctx.handshake stream errSecSuccess errSecSuccess
          errSSLPeerAuthCompleted =
        ⟨Except.error (HandshakeError.ServerAuthCompleted
          ⟨⟨ctx, ⟨stream, none⟩⟩⟩), true, false, true⟩) ∧
      (ctx.handshake stream errSecSuccess errSecSuccess
          errSSLClientCertRequested =
        ⟨Except.error (HandshakeError.ClientCertRequested
          ⟨⟨ctx, ⟨stream, none⟩⟩⟩), true, false, true⟩) ∧
      (ctx.handshake stream errSecSuccess errSecSuccess errSSLWouldBlock =
        ⟨Except.error (HandshakeError.WouldBlock
          ⟨⟨ctx, ⟨stream, none⟩⟩⟩), true, false, true⟩) ∧
      (∀ hs : OSStatus, hs ≠ errSecSuccess → hs ≠ errSSLPeerAuthCompleted →
        hs ≠ errSSLClientCertRequested → hs ≠ errSSLWouldBlock →
        ctx.handshake stream errSecSuccess errSecSuccess hs =
          ⟨Except.error (HandshakeError.Failure ⟨hs⟩), true, true, false⟩) ∧
      (∀ (st : OSStatus) (rest : List OSStatus),
        ctx.handshakeDrive stream errSecSuccess errSecSuccess (st :: rest) =
          some (ctx.handshake stream errSecSuccess errSecSuccess st, rest))) := by
  constructor
  · intro S s
    refine ⟨?_, ?_, ?_, ?_, ?_, ?_⟩
    · simp [MidHandshakeSslStream.handshake, errSecSuccess]
    · simp [MidHandshakeSslStream.handshake, errSecSuccess,
        errSSLPeerAuthCompleted]
    · simp [MidHandshakeSslStream.handshake, errSecSuccess,
        errSSLPeerAuthCompleted, errSSLClientCertRequested]
    · simp [MidHandshakeSslStream.handshake, errSecSuccess,
        errSSLPeerAuthCompleted, errSSLClientCertRequested, errSSLWouldBlock]
    · intro st h1 h2 h3 h4
      simp [MidHandshakeSslStream.handshake, h1, h2, h3, h4]
    · intro st rest
      rfl
  · intro S ctx stream
    refine ⟨?_, ?_, ?_, ?_, ?_, ?_⟩
    · simp [SslContext.handshake, errSecSuccess]
    · simp [SslContext.handshake, errSecSuccess, errSSLPeerAuthCompleted]
    · simp [SslContext.handshake, errSecSuccess, errSSLPeerAuthCompleted,
        errSSLClientCertRequested]
    · simp [SslContext.handshake, errSecSuccess, errSSLPeerAuthCompleted,
        errSSLClientCertRequested, errSSLWouldBlock]
    · intro hs h1 h2 h3 h4
      simp [SslContext.handshake, h1, h2, h3, h4]
    · intro st rest
      simp [SslContext.handshakeDrive, errSecSuccess]

/-- Witness for C1 at a concrete suspended stream and a concrete
non-enumerated status (errSSLProtocol = -9800). -/
theorem handshake_drive_step_classification_witness :
    MidHandshakeSslStream.handshake (S := Nat)
        ⟨⟨⟨ProtocolSide.Client, ConnectionType.Stream⟩, ⟨7, none⟩⟩⟩ (-9800) =
      Except.error (HandshakeError.Failure ⟨-9800⟩) ∧
    SslContext.handshake (S := Nat) ⟨ProtocolSide.Client, ConnectionType.Stream⟩
        7 errSecSuccess errSecSuccess (-9800) =
      ⟨Except.error (HandshakeError.Failure ⟨-9800⟩), true, true, false⟩ :=
  ⟨(handshake_drive_step_classification.1 Nat
      ⟨⟨⟨ProtocolSide.Client, ConnectionType.Stream⟩, ⟨7, none⟩⟩⟩).2.2.2.2.1
      (-9800) (by decide) (by decide) (by decide) (by decide),
   (handshake_drive_step_classification.2 Nat
      ⟨ProtocolSide.Client, ConnectionType.Stream⟩ 7).2.2.2.2.1
      (-9800) (by decide) (by decide) (by decide) (by decide)⟩

/-- Claim C8: while the engine keeps reporting would-block, every resume
returns WouldBlock carrying the identical suspended state; any number of
such resumes never transitions to success or failure. -/
theorem would_block_resume_idempotent :
    ∀ (S : Type) (s : MidHandshakeSslStream S) (statuses : List OSStatus),
      (∀ st ∈ statuses, st = errSSLWouldBlock) →
      resumeSteps s statuses = Except.error (HandshakeError.WouldBlock s) := by
  intro S s statuses
  induction statuses generalizing s with
  | nil =>
    intro h
    rfl
  | cons st rest ih =>
    intro h
    have hst : st = errSSLWouldBlock := h st (List.mem_cons_self st rest)
    subst hst
    have hres : s.handshake errSSLWouldBlock =
        Except.error (HandshakeError.WouldBlock s) := by
      simp [MidHandshakeSslStream.handshake, errSecSuccess, errSSLWouldBlock,
        errSSLPeerAuthCompleted, errSSLClientCertRequested]
    rw [resumeSteps, hres]
    exact ih s (fun st2 hmem => h st2 (List.mem_cons_of_mem _ hmem))

/-- Witness for C8: three blocked resumes at a concrete stream. -/
theorem would_block_resume_idempotent_witness :
    resumeSteps (S := Nat)
        ⟨⟨⟨ProtocolSide.Client, ConnectionType.Stream⟩, ⟨3, none⟩⟩⟩
        [errSSLWouldBlock, errSSLWouldBlock, errSSLWouldBlock] =
      Except.error (HandshakeError.WouldBlock
        ⟨⟨⟨ProtocolSide.Client, ConnectionType.Stream⟩, ⟨3, none⟩⟩⟩) :=
  would_block_resume_idempotent Nat
    ⟨⟨⟨ProtocolSide.Client, ConnectionType.Stream⟩, ⟨3, none⟩⟩⟩
    [errSSLWouldBlock, errSSLWouldBlock, errSSLWouldBlock]
    (by decide)

/-- Claim C4 as stated is false: when SSLSetIOFuncs fails, the returned
HandshakeError::Failure carries only the status — the caller's stream is
dropped with the attempt, not handed back inside the failure value. -/
theorem install_failure_keeps_stream_cx :
    (SslContext.handshake (S := Nat) ⟨ProtocolSide.Client, ConnectionType.Stream⟩
        42 errSecBadReq errSecSuccess errSecSuccess).streamReturned = false ∧
    (SslContext.handshake (S := Nat) ⟨ProtocolSide.Client, ConnectionType.Stream⟩
        42 errSecBadReq errSecSuccess errSecSuccess).result =
      Except.error (HandshakeError.Failure ⟨errSecBadReq⟩) := by
  constructor
  · rfl
  · rfl

/-- Claim C4 (amended): if installation fails — SSLSetIOFuncs or
SSLSetConnection returning non-success — SslContext::handshake returns
Err(Failure(status)) carrying only that status; the caller's stream is
dropped with the attempt rather than handed back, and no resources leak:
on SSLSetIOFuncs failure the Connection shim was never allocated, and on
SSLSetConnection failure the allocated shim is reclaimed before
returning. -/
theorem install_failure_behavior :
    ∀ (S : Type) (ctx : SslContext) (stream : S)
      (setIOFuncsRet setConnectionRet sslHandshakeRet : OSStatus),
      (setIOFuncsRet ≠ errSecSuccess →
        ctx.handshake stream setIOFuncsRet setConnectionRet sslHandshakeRet =
          ⟨Except.error (HandshakeError.Failure ⟨setIOFuncsRet⟩),
            false, false, false⟩) ∧
      (setIOFuncsRet = errSecSuccess → setConnectionRet ≠ errSecSuccess →
        ctx.handshake stream setIOFuncsRet setConnectionRet sslHandshakeRet =
          ⟨Except.error (HandshakeError.Failure ⟨setConnectionRet⟩),
            true, true, false⟩) := by
  intro S ctx stream ioRet connRet hsRet
  constructor
  · intro h
    simp [SslContext.handshake, h]
  · intro h1 h2
    simp [SslContext.handshake, h1, h2]

/-- Witness for the amended C4 at concrete failing statuses. -/
theorem install_failure_behavior_witness :
    SslContext.handshake (S := Nat) ⟨ProtocolSide.Server, ConnectionType.Stream⟩
        5 (-50) errSecSuccess errSecSuccess =
      ⟨Except.error (HandshakeError.Failure ⟨-50⟩), false, false, false⟩ ∧
    SslContext.handshake (S := Nat) ⟨ProtocolSide.Server, ConnectionType.Stream⟩
        5 errSecSuccess (-50) errSecSuccess =
      ⟨Except.error (HandshakeError.Failure ⟨-50⟩), true, true, false⟩ :=
  ⟨(install_failure_behavior Nat ⟨ProtocolSide.Server, ConnectionType.Stream⟩
      5 (-50) errSecSuccess errSecSuccess).1 (by decide),
   (install_failure_behavior Nat ⟨ProtocolSide.Server, ConnectionType.Stream⟩
      5 errSecSuccess (-50) errSecSuccess).2 (by decide) (by decide)⟩

/-- Claim C5: on an established stream, read maps engine success to
Ok(nread), maps each of the three closed-connection statuses to Ok(0),
and every other status to Err; write maps success to Ok(nwritten) and
every non-success status to Err — never a partial silent success. -/
theorem stream_read_write_status_mapping :
    ∀ (S : Type) (s : SslStream S) (nbytes : Nat),
      (s.read errSecSuccess nbytes = (s, Except.ok nbytes)) ∧
      (s.read errSSLClosedGraceful nbytes = (s, Except.ok 0)) ∧
      (s.read errSSLClosedAbort nbytes = (s, Except.ok 0)) ∧
      (s.read errSSLClosedNoNotify nbytes = (s, Except.ok 0)) ∧
      (∀ ret : OSStatus, ret ≠ errSecSuccess → ret ≠ errSSLClosedGraceful →
        ret ≠ errSSLClosedAbort → ret ≠ errSSLClosedNoNotify →
        (s.read ret nbytes).2 = Except.error (s.get_error ret).2) ∧
      (s.write errSecSuccess nbytes = (s, Except.ok nbytes)) ∧
      (∀ ret : OSStatus, ret ≠ errSecSuccess →
        (s.write ret nbytes).2 = Except.error (s.get_error ret).2) := by
  intro S s nbytes
  refine ⟨?_, ?_, ?_, ?_, ?_, ?_, ?_⟩
  · simp [SslStream.read, errSecSuccess]
  · simp [SslStream.read, errSecSuccess, errSSLClosedGraceful]
  · simp [SslStream.read, errSecSuccess, errSSLClosedGraceful,
      errSSLClosedAbort]
  · simp [SslStream.read, errSecSuccess, errSSLClosedGraceful,
      errSSLClosedAbort, errSSLClosedNoNotify]
  · intro ret h1 h2 h3 h4
    simp [SslStream.read, h1, h2, h3, h4]
  · simp [SslStream.write, errSecSuccess]
  · intro ret h1
    simp [SslStream.write, h1]

/-- Witness for C5 at a concrete stream and failing status. -/
theorem stream_read_write_status_mapping_witness :
    (SslStream.read (S := Nat) ⟨⟨ProtocolSide.Client, ConnectionType.Stream⟩,
        ⟨1, none⟩⟩ (-9806) 8).2 = Except.ok 0 ∧
    (SslStream.read (S := Nat) ⟨⟨ProtocolSide.Client, ConnectionType.Stream⟩,
        ⟨1, none⟩⟩ (-9800) 8).2 =
      Except.error ((SslStream.get_error (S := Nat)
        ⟨⟨ProtocolSide.Client, ConnectionType.Stream⟩, ⟨1, none⟩⟩
        (-9800)).2) ∧
    (SslStream.write (S := Nat) ⟨⟨ProtocolSide.Client, ConnectionType.Stream⟩,
        ⟨1, none⟩⟩ (-9800) 8).2 =
      Except.error ((SslStream.get_error (S := Nat)
        ⟨⟨ProtocolSide.Client, ConnectionType.Stream⟩, ⟨1, none⟩⟩
        (-9800)).2) :=
  ⟨congrArg Prod.snd ((stream_read_write_status_mapping Nat
      ⟨⟨ProtocolSide.Client, ConnectionType.Stream⟩, ⟨1, none⟩⟩ 8).2.2.1),
   (stream_read_write_status_mapping Nat
      ⟨⟨ProtocolSide.Client, ConnectionType.Stream⟩, ⟨1, none⟩⟩ 8).2.2.2.2.1
      (-9800) (by decide) (by decide) (by decide) (by decide),
   (stream_read_write_status_mapping Nat
      ⟨⟨ProtocolSide.Client, ConnectionType.Stream⟩, ⟨1, none⟩⟩ 8).2.2.2.2.2.2
      (-9800) (by decide)⟩

/-- Claim C6: when the shim loop observes a stream error it stores the
original untranslated error on the Connection; a subsequently failing
engine-facing read or write surfaces exactly that stored error, and the
generic wrapped status-code error is synthesized only when no stored
error exists. -/
theorem original_error_preserved :
    (∀ (n p : Nat) (pfx rest : List RWResult) (er : IOError)
      (e : Option IOError),
      0 < n → okPrefix n pfx = some p →
      read_func ⟨pfx ++ RWResult.err er :: rest, e⟩ n =
        some (⟨rest, some er⟩, p, translate_err er)) ∧
    (∀ (n p : Nat) (pfx rest : List RWResult) (er : IOError)
      (e : Option IOError),
      0 < n → okPrefix n pfx = some p →
      write_func ⟨pfx ++ RWResult.err er :: rest, e⟩ n =
        some (⟨rest, some er⟩, p, translate_err er)) ∧
    (∀ (S : Type) (s : SslStream S) (e : IOError) (ret : OSStatus) (nb : Nat),
      s.conn.err = some e → ret ≠ errSecSuccess → ret ≠ errSSLClosedGraceful →
      ret ≠ errSSLClosedAbort → ret ≠ errSSLClosedNoNotify →
      (s.read ret nb).2 = Except.error (StreamIOError.original e)) ∧
    (∀ (S : Type) (s : SslStream S) (ret : OSStatus) (nb : Nat),
      s.conn.err = none → ret ≠ errSecSuccess → ret ≠ errSSLClosedGraceful →
      ret ≠ errSSLClosedAbort → ret ≠ errSSLClosedNoNotify →
      (s.read ret nb).2 = Except.error (StreamIOError.wrappedStatus ret)) ∧
    (∀ (S : Type) (s : SslStream S) (e : IOError) (ret : OSStatus) (nb : Nat),
      s.conn.err = some e → ret ≠ errSecSuccess →
      (s.write ret nb).2 = Except.error (StreamIOError.original e)) ∧
    (∀ (S : Type) (s : SslStream S) (ret : OSStatus) (nb : Nat),
      s.conn.err = none → ret ≠ errSecSuccess →
      (s.write ret nb).2 = Except.error (StreamIOError.wrappedStatus ret)) := by
  refine ⟨?_, ?_, ?_, ?_, ?_, ?_⟩
  · intro n p pfx rest er e hn hok
    exact read_func_err n p pfx rest er e hn hok
  · intro n p pfx rest er e hn hok
    exact write_func_err n p pfx rest er e hn hok
  · intro S s e ret nb hconn h1 h2 h3 h4
    simp [SslStream.read, SslStream.get_error, hconn, h1, h2, h3, h4]
  · intro S s ret nb hconn h1 h2 h3 h4
    simp [SslStream.read, SslStream.get_error, hconn, h1, h2, h3, h4]
  · intro S s e ret nb hconn h1
    simp [SslStream.write, SslStream.get_error, hconn, h1]
  · intro S s ret nb hconn h1
    simp [SslStream.write, SslStream.get_error, hconn, h1]

/-- Witness for C6 at concrete traces and streams. -/
theorem original_error_preserved_witness :
    read_func ⟨[] ++ RWResult.err ⟨IOErrorKind.connectionReset, 3⟩ :: [],
        none⟩ 1 =
      some (⟨[], some ⟨IOErrorKind.connectionReset, 3⟩⟩, 0,
        translate_err ⟨IOErrorKind.connectionReset, 3⟩) ∧
    (SslStream.read (S := Nat) ⟨⟨ProtocolSide.Client, ConnectionType.Stream⟩,
        ⟨1, some ⟨IOErrorKind.connectionReset, 3⟩⟩⟩ (-9800) 8).2 =
      Except.error (StreamIOError.original
        ⟨IOErrorKind.connectionReset, 3⟩) ∧
    (SslStream.read (S := Nat) ⟨⟨ProtocolSide.Client, ConnectionType.Stream⟩,
        ⟨1, none⟩⟩ (-9800) 8).2 =
      Except.error (StreamIOError.wrappedStatus (-9800)) :=
  ⟨original_error_preserved.1 1 0 [] [] ⟨IOErrorKind.connectionReset, 3⟩ none
      (by decide) (by decide),
   original_error_preserved.2.2.1 Nat
      ⟨⟨ProtocolSide.Client, ConnectionType.Stream⟩,
        ⟨1, some ⟨IOErrorKind.connectionReset, 3⟩⟩⟩
      ⟨IOErrorKind.connectionReset, 3⟩ (-9800) 8 rfl
      (by decide) (by decide) (by decide) (by decide),
   original_error_preserved.2.2.2.1 Nat
      ⟨⟨ProtocolSide.Client, ConnectionType.Stream⟩, ⟨1, none⟩⟩ (-9800) 8 rfl
      (by decide) (by decide) (by decide) (by decide)⟩

/-- Claim C7: peer_trust on a context whose session state is Idle returns
the bad-request error without invoking SSLCopyPeerTrust, for every
possible result that invocation could have produced. -/
theorem peer_trust_idle_bad_req :
    ∀ (ctx : SslContext) (stateRet : Except Error SessionState)
      (copyPeerTrustRet : Except Error SecTrust),
      stateRet = Except.ok SessionState.Idle →
      ctx.peer_trust stateRet copyPeerTrustRet =
        (Except.error ⟨ errSecBadReq ⟩, false) := by
  intro ctx stateRet copyRet h
  subst h
  rfl

/-- Witness for C7 at a concrete context and copy result. -/
theorem peer_trust_idle_bad_req_witness :
    SslContext.peer_trust ⟨ProtocolSide.Server, ConnectionType.Stream⟩
        (Except.ok SessionState.Idle) (Except.ok ⟨0⟩) =
      (Except.error ⟨ errSecBadReq ⟩, false) :=
  peer_trust_idle_bad_req ⟨ProtocolSide.Server, ConnectionType.Stream⟩
    (Except.ok SessionState.Idle) (Except.ok ⟨0⟩) rfl

/-- Claim C9: the decoders return the documented variant on every
documented raw code and panic (modelled as none) on every other value:
SessionState::from_raw over the five session states,
SslProtocol::from_raw over the ten protocol codes, and
client_certificate_state over the four client-certificate states (an
error from the state query itself is propagated, not a panic). -/
theorem decoders_panic_outside_enum :
    (∀ raw : Int, raw ≠ kSSLIdle → raw ≠ kSSLHandshake → raw ≠ kSSLConnected →
      raw ≠ kSSLClosed → raw ≠ kSSLAborted →
      SessionState.from_raw raw = none) ∧
    (SessionState.from_raw kSSLIdle = some SessionState.Idle ∧
      SessionState.from_raw kSSLHandshake = some SessionState.Handshake ∧
      SessionState.from_raw kSSLConnected = some SessionState.Connected ∧
      SessionState.from_raw kSSLClosed = some SessionState.Closed ∧
      SessionState.from_raw kSSLAborted = some SessionState.Aborted) ∧
    (∀ raw : Int, raw ≠ kSSLProtocolUnknown → raw ≠ kSSLProtocol3 →
      raw ≠ kTLSProtocol1 → raw ≠ kTLSProtocol11 → raw ≠ kTLSProtocol12 →
      raw ≠ kDTLSProtocol1 → raw ≠ kSSLProtocol2 → raw ≠ kSSLProtocol3Only →
      raw ≠ kTLSProtocol1Only → raw ≠ kSSLProtocolAll →
      SslProtocol.from_raw raw = none) ∧
    (SslProtocol.from_raw kSSLProtocolUnknown = some SslProtocol.Unknown ∧
      SslProtocol.from_raw kSSLProtocol3 = some SslProtocol.Ssl3 ∧
      SslProtocol.from_raw kTLSProtocol1 = some SslProtocol.Tls1 ∧
      SslProtocol.from_raw kTLSProtocol11 = some SslProtocol.Tls11 ∧
      SslProtocol.from_raw kTLSProtocol12 = some SslProtocol.Tls12 ∧
      SslProtocol.from_raw kDTLSProtocol1 = some SslProtocol.Dtls1 ∧
      SslProtocol.from_raw kSSLProtocol2 = some SslProtocol.Ssl2 ∧
      SslProtocol.from_raw kSSLProtocol3Only = some SslProtocol.Ssl3Only ∧
      SslProtocol.from_raw kTLSProtocol1Only = some SslProtocol.Tls1Only ∧
      SslProtocol.from_raw kSSLProtocolAll = some SslProtocol.All) ∧
    (∀ (ctx : SslContext) (raw : Int), raw ≠ kSSLClientCertNone →
      raw ≠ kSSLClientCertRequested → raw ≠ kSSLClientCertSent →
      raw ≠ kSSLClientCertRejected →
      ctx.client_certificate_state (Except.ok raw) = none) ∧
    (∀ ctx : SslContext,
      ctx.client_certificate_state (Except.ok kSSLClientCertNone) =
        some (Except.ok SslClientCertificateState.None) ∧
      ctx.client_certificate_state (Except.ok kSSLClientCertRequested) =
        some (Except.ok SslClientCertificateState.Requested) ∧
      ctx.client_certificate_state (Except.ok kSSLClientCertSent) =
        some (Except.ok SslClientCertificateState.Sent) ∧
      ctx.client_certificate_state (Except.ok kSSLClientCertRejected) =
        some (Except.ok SslClientCertificateState.Rejected) ∧
      (∀ e : Error, ctx.client_certificate_state (Except.error e) =
        some (Except.error e))) := by
  refine ⟨?_, by decide, ?_, by decide, ?_, ?_⟩
  · intro raw h1 h2 h3 h4 h5
    simp [SessionState.from_raw, h1, h2, h3, h4, h5]
  · intro raw h1 h2 h3 h4 h5 h6 h7 h8 h9 h10
    simp [SslProtocol.from_raw, h1, h2, h3, h4, h5, h6, h7, h8, h9, h10]
  · intro ctx raw h1 h2 h3 h4
    simp [SslContext.client_certificate_state, h1, h2, h3, h4]
  · intro ctx
    refine ⟨rfl, rfl, rfl, rfl, fun e => rfl⟩

/-- Witness for C9 at concrete out-of-enumeration codes. -/
theorem decoders_panic_outside_enum_witness :
    SessionState.from_raw 17 = none ∧
    SslProtocol.from_raw 23 = none ∧
    SslContext.client_certificate_state
      ⟨ProtocolSide.Server, ConnectionType.Stream⟩ (Except.ok 11) = none :=
  ⟨decoders_panic_outside_enum.1 17 (by decide) (by decide) (by decide)
      (by decide) (by decide),
   decoders_panic_outside_enum.2.2.1 23 (by decide) (by decide) (by decide)
      (by decide) (by decide) (by decide) (by decide) (by decide) (by decide)
      (by decide),
   decoders_panic_outside_enum.2.2.2.2.1
      ⟨ProtocolSide.Server, ConnectionType.Stream⟩ 11 (by decide) (by decide)
      (by decide) (by decide)⟩

/-- Claim C10: building the io::Error for a failing read or write takes the
stored error off the Connection shim, so it is delivered at most once: the
first failure surfaces the original error and clears the slot, and a
second engine failure with no intervening stream error yields the
synthesized wrapped-status error. -/
theorem stored_error_delivered_once :
    ∀ (S : Type) (s : SslStream S) (e : IOError) (ret1 ret2 : OSStatus)
      (n1 n2 : Nat),
      s.conn.err = some e →
      ret1 ≠ errSecSuccess → ret1 ≠ errSSLClosedGraceful →
      ret1 ≠ errSSLClosedAbort → ret1 ≠ errSSLClosedNoNotify →
      ret2 ≠ errSecSuccess → ret2 ≠ errSSLClosedGraceful →
      ret2 ≠ errSSLClosedAbort → ret2 ≠ errSSLClosedNoNotify →
      ((s.read ret1 n1).2 = Except.error (StreamIOError.original e)) ∧
      ((s.read ret1 n1).1.conn.err = none) ∧
      (((s.read ret1 n1).1.read ret2 n2).2 =
        Except.error (StreamIOError.wrappedStatus ret2)) := by
  intro S s e ret1 ret2 n1 n2 hconn h1 h2 h3 h4 h5 h6 h7 h8
  refine ⟨?_, ?_, ?_⟩
  · simp [SslStream.read, SslStream.get_error, hconn, h1, h2, h3, h4]
  · simp [SslStream.read, SslStream.get_error, hconn, h1, h2, h3, h4]
  · simp [SslStream.read, SslStream.get_error, hconn, h1, h2, h3, h4,
      h5, h6, h7, h8]

/-- Witness for C10 at a concrete stream with a stored error and two
consecutive failing engine statuses. -/
theorem stored_error_delivered_once_witness :
    ((SslStream.read (S := Nat) ⟨⟨ProtocolSide.Client, ConnectionType.Stream⟩,
        ⟨1, some ⟨IOErrorKind.brokenPipe, 2⟩⟩⟩ (-9800) 4).2 =
      Except.error (StreamIOError.original ⟨IOErrorKind.brokenPipe, 2⟩)) ∧
    ((SslStream.read (S := Nat) ⟨⟨ProtocolSide.Client, ConnectionType.Stream⟩,
        ⟨1, some ⟨IOErrorKind.brokenPipe, 2⟩⟩⟩ (-9800) 4).1.conn.err =
      none) ∧
    (((SslStream.read (S := Nat) ⟨⟨ProtocolSide.Client, ConnectionType.Stream⟩,
        ⟨1, some ⟨IOErrorKind.brokenPipe, 2⟩⟩⟩ (-9800) 4).1.read
        (-9817) 4).2 =
      Except.error (StreamIOError.wrappedStatus (-9817))) :=
  stored_error_delivered_once Nat
    ⟨⟨ProtocolSide.Client, ConnectionType.Stream⟩,
      ⟨1, some ⟨IOErrorKind.brokenPipe, 2⟩⟩⟩
    ⟨IOErrorKind.brokenPipe, 2⟩ (-9800) (-9817) 4 4 rfl
    (by decide) (by decide) (by decide) (by decide)
    (by decide) (by decide) (by decide) (by decide)

end SecureTransport
